import Mathlib

/-! ## Definitions -/

/-- Microsecond-precision aware UTC datetime (CPython `datetime`). -/
structure Datetime where
  micros : Nat
  deriving DecidableEq, Repr

/-- The decimal digit character for `n % 10` (code point 48 is `0`). -/
def digitChar (n : Nat) : Char :=
  Char.ofNat (48 + n % 10)

/-- Value of a decimal digit character; `none` on any other character. -/
def digitVal (c : Char) : Option Nat :=
  if 48 ≤ c.toNat ∧ c.toNat ≤ 57 then some (c.toNat - 48) else none

/-- Fuel-driven (structurally recursive, hence kernel-computable) rendering
of a natural number in decimal, most significant digit first, prepended to
`acc`.  `fuel` must exceed the number being rendered. -/
def natDigitsAux : Nat → Nat → List Char → List Char
  | 0, _, acc => acc
  | fuel + 1, n, acc =>
    if n < 10 then digitChar n :: acc
    else natDigitsAux fuel (n / 10) (digitChar (n % 10) :: acc)

/-- Decimal digits of `n`, most significant first. -/
def natDigits (n : Nat) : List Char :=
  natDigitsAux (n + 1) n []

/-- Parser accumulator: consume decimal digits, failing on a non-digit. -/
def parseDigitsAux (acc : Nat) : List Char → Option Nat
  | [] => some acc
  | c :: cs =>
    match digitVal c with
    | some d => parseDigitsAux (acc * 10 + d) cs
    | none => none

/-- Parse a non-empty all-digit character list as a natural number. -/
def parseDigits : List Char → Option Nat
  | [] => none
  | c :: cs => parseDigitsAux 0 (c :: cs)

/-- Model of `datetime.isoformat()`: an injective textual rendering of the
timestamp (see the header comment). -/
def Datetime.isoformat (d : Datetime) : String :=
  String.mk (natDigits d.micros)

/-- Model of `datetime.fromisoformat` applied to a string: exact inverse of
`Datetime.isoformat` on its image, `none` (Python `ValueError`) on strings
not of that form. -/
def fromisoformat (s : String) : Option Datetime :=
  (parseDigits s.data).map Datetime.mk

/-- Mathematical companion of `natDigitsAux`: append the decimal digits of
`n` to the accumulator `a` (as `parseDigitsAux` would). Used only in proofs. -/
def appendNum (a n : Nat) : Nat :=
  if _h : n < 10 then a * 10 + n
  else appendNum a (n / 10) * 10 + n % 10
decreasing_by exact Nat.div_lt_self (by omega) (by omega)

/-- TOML values, as produced by `tomllib.load` / consumed by `tomli_w.dump`
on the documents this program reads and writes. Tables keep key order
(Python dicts are insertion ordered). -/
inductive Toml where
  | str (s : String)
  | int (n : Int)
  | arr (xs : List Toml)
  | table (kvs : List (String × Toml))
  deriving Repr

/-- Python exception kinds relevant to the embedded code. -/
inductive PyExn where
  | keyError
  | valueError
  | typeError
  | attributeError
  | osError
  deriving DecidableEq, Repr

/-- Rendering of a Python exception as it appears in error-message strings
(this models `str(e)` only up to its kind; no claim depends on the full
message text). -/
def exnStr : PyExn → String
  | .keyError => "KeyError"
  | .valueError => "ValueError"
  | .typeError => "TypeError"
  | .attributeError => "AttributeError"
  | .osError => "OSError"

/-- Modelled from the spec and from the enum usages in
src/llm_discovery/services/cache.py and discovery.py (the file
`models/__init__.py` defining the enums is not under src/):
fetch status of a provider snapshot, with values "success" / "failure". -/
inductive FetchStatus where
  | success
  | failure
  deriving DecidableEq, Repr

/-- The `.value` attribute of a `FetchStatus` member. -/
def FetchStatus.value : FetchStatus → String
  | .success => "success"
  | .failure => "failure"

/-- `FetchStatus(x)` enum construction: `ValueError` unless `x` is one of
the member values (a non-string argument also raises `ValueError`). -/
def fetchStatusOf : Toml → Except PyExn FetchStatus
  | .str "success" => .ok .success
  | .str "failure" => .ok .failure
  | _ => .error .valueError

/-- Modelled from the spec (provenance tag `api` | `manual`) and the enum
usages in cache.py: source of a model record. -/
inductive ModelSource where
  | api
  | manual
  deriving DecidableEq, Repr

/-- The `.value` attribute of a `ModelSource` member. -/
def ModelSource.value : ModelSource → String
  | .api => "api"
  | .manual => "manual"

/-- `ModelSource(x)` enum construction. -/
def modelSourceOf : Toml → Except PyExn ModelSource
  | .str "api" => .ok .api
  | .str "manual" => .ok .manual
  | _ => .error .valueError

/-- Modelled from the spec (§3 ModelRecord) and the field usages in
cache.py/conftest.py (`models/__init__.py` is not under src/): a model
record. `metadata` is a string-to-string mapping, kept in insertion order. -/
structure Model where
  model_id : String
  model_name : String
  provider_name : String
  source : ModelSource
  fetched_at : Datetime
  metadata : List (String × String)
  deriving DecidableEq, Repr

/-- Modelled from the spec (§3 ProviderSnapshot) and the field usages in
cache.py/discovery.py/test_cli.py: a provider snapshot.  A plain record:
the tests construct success snapshots with `error_message=None` and the
list command loads success snapshots whose `error_message` is `""`, so no
cross-field validation is modelled. -/
structure ProviderSnapshot where
  provider_name : String
  models : List Model
  fetch_status : FetchStatus
  fetched_at : Datetime
  error_message : Option String
  deriving DecidableEq, Repr

/-- Modelled from the spec (§3 CacheMetadata) and cache.py:39-57. -/
structure CacheMetadata where
  version : Int
  created_at : Datetime
  last_updated : Datetime
  deriving DecidableEq, Repr

/-- Modelled from the spec (§3 Cache) and cache.py:60. -/
structure Cache where
  metadata : CacheMetadata
  providers : List ProviderSnapshot
  deriving DecidableEq, Repr

/-- Modelled from the spec (§6: "schema version int"); the constant lives in
`llm_discovery/constants.py`, which is not under src/.  No claim depends on
its value. -/
def TOML_CACHE_VERSION : Int := 1

/-- Association-list lookup on a TOML table's key/value list (Python dict
lookup; keys are unique in a parsed TOML document). -/
def lookupT (kvs : List (String × Toml)) (k : String) : Option Toml :=
  match kvs with
  | [] => none
  | (k1, v) :: rest => if k1 = k then some v else lookupT rest k

/-- Python subscript `t[k]`: `KeyError` when the key is missing from a dict,
`TypeError` when `t` is not a dict (string/int/list subscripts with a string
key raise `TypeError`). -/
def subscript (t : Toml) (k : String) : Except PyExn Toml :=
  match t with
  | .table kvs =>
    match lookupT kvs k with
    | some v => .ok v
    | none => .error .keyError
  | _ => .error .typeError

/-- Python `t.get(k, default)`: `AttributeError` when `t` is not a dict
(only dicts have a `.get` method). -/
def pyGet (t : Toml) (k : String) (default : Toml) : Except PyExn Toml :=
  match t with
  | .table kvs => .ok ((lookupT kvs k).getD default)
  | _ => .error .attributeError

/-- Python `t.get(k)` (no default, yielding `None` when missing):
`AttributeError` when `t` is not a dict. -/
def pyGetOpt (t : Toml) (k : String) : Except PyExn (Option Toml) :=
  match t with
  | .table kvs => .ok (lookupT kvs k)
  | _ => .error .attributeError

/-- Python iteration `for x in t`: lists yield their elements, strings yield
their characters (as one-character strings), dicts yield their keys, and
integers raise `TypeError` (not iterable). -/
def pyIterate (t : Toml) : Except PyExn (List Toml) :=
  match t with
  | .arr xs => .ok xs
  | .str s => .ok (s.data.map (fun c => Toml.str (String.mk [c])))
  | .table kvs => .ok (kvs.map (fun kv => Toml.str kv.1))
  | .int _ => .error .typeError

/-- Pydantic validation of a `str` field: a non-string value raises a
`ValidationError` (a subclass of `ValueError`). -/
def asStr : Toml → Except PyExn String
  | .str s => .ok s
  | _ => .error .valueError

/-- Pydantic validation of one `dict[str, str]` entry. -/
def strEntry (kv : String × Toml) : Except PyExn (String × String) :=
  match kv.2 with
  | .str s => .ok (kv.1, s)
  | _ => .error .valueError

/-- Pydantic validation of a `dict[str, str]` field. -/
def asStrMap (t : Toml) : Except PyExn (List (String × String)) :=
  match t with
  | .table kvs => kvs.mapM strEntry
  | _ => .error .valueError

/-- `datetime.fromisoformat(t)`: `TypeError` on a non-string argument,
`ValueError` on a malformed string. -/
def fromisoformatPy (t : Toml) : Except PyExn Datetime :=
  match t with
  | .str s =>
    match fromisoformat s with
    | some d => .ok d
    | none => .error .valueError
  | _ => .error .typeError

/-- Python `x or ""` on an `Optional[str]`: `None` and `""` are falsy. -/
def orEmpty : Option String → String
  | none => ""
  | some s => s

/-- Parsed content of a present cache file: `tomllib.load` yields a dict
(the top-level of a TOML document is always a table) or raises
`TOMLDecodeError`. -/
inductive FileContent where
  | parsable (kvs : List (String × Toml))
  | unparsable
  deriving Repr

/-- State of the on-disk cache file. -/
inductive CacheFile where
  | absent
  | present (content : FileContent)
  deriving Repr

/-- `save_cache` lines 77-83: serialization of one model record. -/
def modelToToml (m : Model) : Toml :=
  .table [
    ("model_id", .str m.model_id),
    ("model_name", .str m.model_name),
    ("provider_name", .str m.provider_name),
    ("source", .str m.source.value),
    ("fetched_at", .str m.fetched_at.isoformat),
    ("metadata", .table (m.metadata.map (fun kv => (kv.1, .str kv.2))))]

/-- `save_cache` lines 70-86: serialization of one provider snapshot. -/
def snapToToml (p : ProviderSnapshot) : Toml :=
  .table [
    ("provider_name", .str p.provider_name),
    ("fetch_status", .str p.fetch_status.value),
    ("fetched_at", .str p.fetched_at.isoformat),
    ("error_message", .str (orEmpty p.error_message)),
    ("models", .arr (p.models.map modelToToml))]

/-- `save_cache` lines 63-89: the `cache_dict` written to the TOML file. -/
def cacheDictKvs (created_at now : Datetime) (providers : List ProviderSnapshot) :
    List (String × Toml) :=
  [("metadata", .table [
      ("version", .int TOML_CACHE_VERSION),
      ("created_at", .str created_at.isoformat),
      ("last_updated", .str now.isoformat)]),
   ("providers", .arr (providers.map snapToToml))]

/-- The cache file written by a successful save. -/
def mkSaved (created_at now : Datetime) (providers : List ProviderSnapshot) : CacheFile :=
  .present (.parsable (cacheDictKvs created_at now providers))

/-- `save_cache` lines 46-48: the attempt
`datetime.fromisoformat(existing_cache["metadata"]["created_at"])` on a
parsed existing cache. -/
def attemptRecover (kvs : List (String × Toml)) : Except PyExn Datetime := do
  let m ← subscript (.table kvs) "metadata"
  let c ← subscript m "created_at"
  fromisoformatPy c

/-- The exception kinds caught by `except (tomllib.TOMLDecodeError, KeyError,
ValueError)` at cache.py:49 (`TOMLDecodeError` is handled separately as the
`unparsable` file content). -/
def caughtInSave : PyExn → Bool
  | .keyError => true
  | .valueError => true
  | _ => false

/-- `CacheService.save_cache` (cache.py:26-93).  `now` is `datetime.now(UTC)`;
`readFails` models a transient I/O error (`OSError`) raised while opening or
reading the existing cache file — `OSError` is not in the `except` tuple at
line 49, so it propagates. A `TypeError` from `fromisoformat` on a
non-string `created_at` likewise propagates. The final `tomli_w.dump`
(single write) is modelled as always succeeding; on any propagated
exception the file is unchanged (the write at line 92 was never reached). -/
def save_cache (now : Datetime) (file : CacheFile) (readFails : Bool)
    (providers : List ProviderSnapshot) : Except PyExn CacheFile :=
  match file with
  | .absent => .ok (mkSaved now now providers)
  | .present content =>
    if readFails then .error .osError
    else
      match content with
      | .unparsable => .ok (mkSaved now now providers)
      | .parsable kvs =>
        match attemptRecover kvs with
        | .ok created_at => .ok (mkSaved created_at now providers)
        | .error e =>
          if caughtInSave e then .ok (mkSaved now now providers)
          else .error e

/-- `load_cache` lines 116-128: reconstruction of one model record.  Keyword
arguments are evaluated in order (`model_id`, `model_name`, `provider_name`,
`source`, `fetched_at`, `metadata`); pydantic validation of the string
fields raises `ValidationError` (⊆ `ValueError`) and is folded inline, which
can only change the kind of the raised exception among kinds landing in the
same `except` clause. -/
def loadModel (model_data : Toml) : Except PyExn Model := do
  let mid ← subscript model_data "model_id"
  let midS ← asStr mid
  let mn ← subscript model_data "model_name"
  let mnS ← asStr mn
  let pn ← subscript model_data "provider_name"
  let pnS ← asStr pn
  let src ← subscript model_data "source"
  let srcV ← modelSourceOf src
  let fa ← subscript model_data "fetched_at"
  let faD ← fromisoformatPy fa
  let md ← pyGet model_data "metadata" (.table [])
  let mdM ← asStrMap md
  pure ⟨midS, mnS, pnS, srcV, faD, mdM⟩

/-- `load_cache` lines 115-140: reconstruction of one provider snapshot.
The `for model_data in provider_data.get("models", [])` loop runs first, so
a non-dict provider entry raises `AttributeError` from `.get`. -/
def loadSnapshot (provider_data : Toml) : Except PyExn ProviderSnapshot := do
  let modelsToml ← pyGet provider_data "models" (.arr [])
  let modelItems ← pyIterate modelsToml
  let models ← modelItems.mapM loadModel
  let pn ← subscript provider_data "provider_name"
  let pnS ← asStr pn
  let fs ← subscript provider_data "fetch_status"
  let fsV ← fetchStatusOf fs
  let fa ← subscript provider_data "fetched_at"
  let faD ← fromisoformatPy fa
  let em ← pyGetOpt provider_data "error_message"
  let emS ← match em with
    | none => pure none
    | some (.str s) => pure (some s)
    | some _ => Except.error PyExn.valueError
  pure ⟨pnS, models, fsV, faD, emS⟩

/-- `load_cache` lines 113-142: the whole reconstruction over
`cache_dict.get("providers", [])`. -/
def reconstruct (kvs : List (String × Toml)) : Except PyExn (List ProviderSnapshot) := do
  let items ← pyIterate ((lookupT kvs "providers").getD (.arr []))
  items.mapM loadSnapshot

/-- The exception kinds caught by `except (KeyError, ValueError, TypeError)`
at cache.py:148 (the `TOMLDecodeError` clause at line 144 is handled by the
`unparsable` file content). -/
def caughtInLoad : PyExn → Bool
  | .keyError => true
  | .valueError => true
  | .typeError => true
  | _ => false

/-- Errors surfaced by `load_cache`: `CacheNotFoundError`,
`CacheCorruptedError` (cache path + parse error), or a Python exception that
escapes both `except` clauses. -/
inductive LoadError where
  | notFound (msg : String)
  | corrupted (cache_path : String) (parse_error : String)
  | uncaught (e : PyExn)
  deriving DecidableEq, Repr

/-- The two `except` clauses of `load_cache` (cache.py:144-152), applied to
the reconstruction outcome of a parsed file: a caught exception is
normalized into `CacheCorruptedError`; any other exception propagates. -/
def loadResult (path : String) (r : Except PyExn (List ProviderSnapshot)) :
    Except LoadError (List ProviderSnapshot) :=
  match r with
  | .ok snaps => .ok snaps
  | .error e =>
    if caughtInLoad e then
      .error (.corrupted path ("Invalid cache structure: " ++ exnStr e))
    else .error (.uncaught e)

/-- `CacheService.load_cache` (cache.py:95-152). `path` is
`str(self.cache_file)`. -/
def load_cache (path : String) (file : CacheFile) :
    Except LoadError (List ProviderSnapshot) :=
  match file with
  | .absent => .error (.notFound ("Cache file not found: " ++ path))
  | .present .unparsable => .error (.corrupted path "TOML decode error")
  | .present (.parsable kvs) => loadResult path (reconstruct kvs)

/-- `CacheService.get_cached_models` (cache.py:154-168): load, then extend an
accumulator with each provider's models. -/
def get_cached_models (path : String) (file : CacheFile) :
    Except LoadError (List Model) :=
  match load_cache path file with
  | .error e => .error e
  | .ok providers => .ok (providers.foldl (fun acc p => acc ++ p.models) [])

/-- The configuration fields `fetch_all_models` consults
(src/llm_discovery/models/config.py). -/
structure Config where
  openai_api_key : Option String
  google_api_key : Option String
  google_genai_use_vertexai : Bool
  deriving DecidableEq, Repr

/-- Python truthiness of an `Optional[str]`: `None` and `""` are falsy. -/
def truthy : Option String → Bool
  | none => false
  | some s => !(s == "")

/-- `fetch_all_models` lines 44-59: the `provider_names` list, built in
registration order — openai when its key is set, then google when its key or
the Vertex AI flag is set, then anthropic unconditionally.  One fetch task
is created per entry, in the same order. -/
def provider_names (cfg : Config) : List String :=
  (if truthy cfg.openai_api_key then ["openai"] else []) ++
    (if truthy cfg.google_api_key || cfg.google_genai_use_vertexai then ["google"] else []) ++
    ["anthropic"]

/-- `DiscoveryService._fetch_from_provider` (discovery.py:92-114): wrap a
fetcher's result into a success snapshot (`fetch_status=SUCCESS`,
`error_message=None`, `provider_name` the fetcher's provider name — the
fetcher implementations are not under src/; per the spec (§4.1) each
fetcher's records are tagged with its provider name, so the fetcher created
for name `n` carries `provider_name = n`), or re-raise the fetcher's
exception (collected by `asyncio.gather(..., return_exceptions=True)`).
`fetch n` is the black-box outcome of fetcher `n` and `times n` the
`datetime.now(UTC)` observed on its success path. -/
def fetchFromProvider (fetch : String → Except String (List Model))
    (times : String → Datetime) (n : String) : Except String ProviderSnapshot :=
  match fetch n with
  | .ok models => .ok ⟨n, models, .success, times n, none⟩
  | .error e => .error e

/-- `asyncio.gather(*tasks, return_exceptions=True)` (discovery.py:62-64):
returns the outcome of every task, positionally, in task-submission order —
the order in which the tasks happen to complete (`completionOrder`, an
arbitrary schedule) does not influence the returned list. -/
def gather (names : List String) (results : String → Except String ProviderSnapshot)
    (_completionOrder : List Nat) : List (Except String ProviderSnapshot) :=
  names.map results

/-- `fetch_all_models` lines 67-76: the result-processing loop over
`zip(provider_names, results)`, appending to `snapshots`,
`successful_providers` and `failed_providers`.  (Head-first recursion with
prepending yields the same left-to-right append order as the loop.) -/
def partitionResults :
    List (String × Except String ProviderSnapshot) →
      List ProviderSnapshot × List String × List String
  | [] => ([], [], [])
  | (n, r) :: rest =>
    let (s, ok, bad) := partitionResults rest
    match r with
    | .ok snap => (snap :: s, n :: ok, bad)
    | .error _ => (s, ok, n :: bad)

/-- The errors `fetch_all_models` raises: `PartialFetchError` with the two
provider-name lists, or `ProviderFetchError` with a provider name and cause
(constructor shapes read off the raise sites at discovery.py:81-88 and the
handlers in update.py). -/
inductive FetchAllError where
  | partialFetch (successful_providers failed_providers : List String)
  | providerFetch (provider_name cause : String)
  deriving DecidableEq, Repr

/-- `DiscoveryService.fetch_all_models` (discovery.py:33-90). -/
def fetch_all_models (cfg : Config) (fetch : String → Except String (List Model))
    (times : String → Datetime) (completionOrder : List Nat) :
    Except FetchAllError (List ProviderSnapshot) :=
  let names := provider_names cfg
  let results := gather names (fetchFromProvider fetch times) completionOrder
  let (snapshots, successful_providers, failed_providers) :=
    partitionResults (names.zip results)
  if failed_providers ≠ [] then
    if successful_providers ≠ [] then
      .error (.partialFetch successful_providers failed_providers)
    else
      .error (.providerFetch "all" "All providers failed")
  else
    .ok snapshots

/-- `update_command` (update.py:17-93), on the fetch-and-save path: fetch
from all providers, and only on success save to the cache
(`service.save_to_cache` = `CacheService.save_cache`).  Every error path
(`PartialFetchError`, `ProviderFetchError`, or an exception escaping
`save_cache`, caught by the catch-all) exits with code 1 and leaves the
cache file untouched; success exits 0 with the saved file. Returns
(exit code, resulting cache file state). -/
def update_command (cfg : Config) (fetch : String → Except String (List Model))
    (times : String → Datetime) (completionOrder : List Nat)
    (now : Datetime) (file : CacheFile) (readFails : Bool) : Nat × CacheFile :=
  match fetch_all_models cfg fetch times completionOrder with
  | .error _ => (1, file)
  | .ok providers =>
    match save_cache now file readFails providers with
    | .ok file2 => (0, file2)
    | .error _ => (1, file)

/-- Modelled from the exporters mapping at export.py:73-79 (the constant
itself lives in `llm_discovery/constants.py`, not under src/). -/
def SUPPORTED_EXPORT_FORMATS : List String := ["json", "csv", "yaml", "markdown", "toml"]

/-- The keyword parameters accepted by `Config.from_env`
(src/llm_discovery/models/config.py:32-63): the signature is
`from_env(cls)` — it accepts no keyword argument at all. -/
def from_env_params : List String := []

/-- A call `Config.from_env(**kwargs)` by keyword-argument names: CPython
raises `TypeError` at argument-binding time (before the body runs) when a
keyword is not an accepted parameter; `envConfig` is the configuration the
body would build from the environment otherwise. -/
def callFromEnv (envConfig : Config) (kwargs : List String) : Except PyExn Config :=
  if kwargs.all (fun k => from_env_params.contains k) then .ok envConfig
  else .error .typeError

/-- Observable outcome of one `export_command` invocation. -/
structure ExportTrace where
  exit : Nat
  usedCatchAll : Bool
  readCache : Bool
  invokedExporter : Bool
  deriving DecidableEq, Repr

/-- `export_command` (export.py:23-114).  Control flow:
format check (an unsupported format raises `typer.Exit(2)`, which — being a
`click.exceptions.Exit ⊆ RuntimeError` — is caught by the terminal
`except Exception` and re-raised as exit 1); then
`Config.from_env(require_api_keys=False)` inside a `try` whose handler
catches only `ValueError`; a `TypeError` from that call therefore falls to
the catch-all `except Exception` at export.py:112, exiting 1 before the
cache is read; on a (hypothetical) successful configuration load, the cache
is read and the selected exporter invoked. -/
def export_command (fmt : String) (envConfig : Config) (path : String)
    (cache : CacheFile) : ExportTrace :=
  if ¬ SUPPORTED_EXPORT_FORMATS.contains fmt then
    ⟨1, true, false, false⟩
  else
    match callFromEnv envConfig ["require_api_keys"] with
    | .error e =>
      if e = .valueError then ⟨1, false, false, false⟩
      else ⟨1, true, false, false⟩
    | .ok _cfg =>
      match get_cached_models path cache with
      | .error _ => ⟨1, false, true, false⟩
      | .ok models =>
        if models.isEmpty then ⟨1, false, true, false⟩
        else ⟨0, false, true, true⟩

/-- The field transformation the save/load round trip applies to a snapshot:
everything is preserved except that an absent error message comes back as
the empty string (`p.error_message or ""` on write, read back verbatim). -/
def normEM (p : ProviderSnapshot) : ProviderSnapshot :=
  { p with error_message := some (orEmpty p.error_message) }

def cfgC1 : Config := ⟨some "k", none, false⟩

def fetchC1 : String → Except String (List Model) :=
  fun n => if n = "openai" then .ok [] else .error "boom"

def timesZero : String → Datetime := fun _ => ⟨0⟩

def cfgC2 : Config := ⟨some "k", none, false⟩

def fetchAllFail : String → Except String (List Model) := fun _ => .error "boom"

def cfgC7 : Config := ⟨some "k", some "g", false⟩

def fetchC7 : String → Except String (List Model) := fun _ => .ok []

def snapC3 : ProviderSnapshot := ⟨"openai", [], .success, ⟨3⟩, none⟩

def modelC3 : Model := ⟨"gpt-4", "GPT-4", "openai", .api, ⟨2⟩, [("k", "v")]⟩

def snapC3a : ProviderSnapshot := ⟨"openai", [modelC3], .success, ⟨3⟩, none⟩

def snapC3b : ProviderSnapshot := ⟨"google", [], .failure, ⟨4⟩, some "err"⟩

def fileC4 : CacheFile := .present (.parsable (cacheDictKvs ⟨1⟩ ⟨2⟩ []))

def kvsC5 : List (String × Toml) :=
  [("metadata", .table [("created_at", .str (Datetime.isoformat ⟨3⟩))])]

def fileC6 : CacheFile := .present (.parsable [("providers", .arr [.str "x"])])

def kvsC6 : List (String × Toml) := [("providers", .arr [.table []])]

def kvsEmptyProviders : List (String × Toml) :=
  [("metadata", .table [("version", .int 1), ("created_at", .str "1"),
    ("last_updated", .str "2")]),
   ("providers", .arr [])]

def modelC9a : Model := ⟨"gpt-4", "GPT-4", "openai", .api, ⟨2⟩, []⟩

def modelC9b : Model := ⟨"gemini", "Gemini", "google", .api, ⟨2⟩, []⟩

def fileC9 : CacheFile :=
  mkSaved ⟨5⟩ ⟨5⟩ [⟨"openai", [modelC9a], .success, ⟨3⟩, none⟩,
                   ⟨"google", [modelC9b], .success, ⟨3⟩, none⟩]

def kvsC10 : List (String × Toml) := [("metadata", .str "garbage")]

/-! ## Theorems -/

theorem digitVal_digitChar {d : Nat} (h : d < 10) :
    digitVal (digitChar d) = some d := by
  interval_cases d <;> rfl

theorem appendNum_zero (n : Nat) : appendNum 0 n = n := by
  induction n using Nat.strong_induction_on with
  | _ n ih =>
    rw [appendNum]
    by_cases h : n < 10
    · simp [h]
    · have hd : n / 10 < n := Nat.div_lt_self (by omega) (by omega)
      simp only [h, dite_false]
      rw [ih _ hd]
      omega

theorem parseDigitsAux_natDigitsAux (fuel : Nat) :
    ∀ n acc accN, n < fuel →
      parseDigitsAux accN (natDigitsAux fuel n acc) =
        parseDigitsAux (appendNum accN n) acc := by
  induction fuel with
  | zero => intro n acc accN h; omega
  | succ fuel ih =>
    intro n acc accN h
    rw [natDigitsAux, appendNum]
    by_cases h10 : n < 10
    · simp only [h10, if_true, dite_true]
      rw [parseDigitsAux]
      rw [digitVal_digitChar h10]
    · simp only [h10, if_false, dite_false]
      have hd : n / 10 < n := Nat.div_lt_self (by omega) (by omega)
      rw [ih (n / 10) _ accN (by omega)]
      rw [parseDigitsAux]
      rw [digitVal_digitChar (Nat.mod_lt _ (by omega))]

theorem natDigitsAux_ne_nil (fuel : Nat) :
    ∀ n acc, n < fuel → natDigitsAux fuel n acc ≠ [] := by
  induction fuel with
  | zero => intro n acc h; omega
  | succ fuel ih =>
    intro n acc h
    rw [natDigitsAux]
    by_cases h10 : n < 10
    · simp [h10]
    · simp only [h10, if_false]
      have hd : n / 10 < n := Nat.div_lt_self (by omega) (by omega)
      exact ih (n / 10) _ (by omega)

theorem parseDigits_natDigits (n : Nat) : parseDigits (natDigits n) = some n := by
  unfold natDigits
  have hne := natDigitsAux_ne_nil (n + 1) n [] (Nat.lt_succ_self n)
  rcases hl : natDigitsAux (n + 1) n [] with _ | ⟨c, cs⟩
  · exact absurd hl hne
  · rw [parseDigits, ← hl]
    rw [parseDigitsAux_natDigitsAux (n + 1) n [] 0 (Nat.lt_succ_self n)]
    rw [appendNum_zero]
    rfl

/-- Round trip of the timestamp codec: `fromisoformat (d.isoformat) = d`,
exactly (in particular to at least second precision). -/
theorem fromisoformat_isoformat (d : Datetime) :
    fromisoformat d.isoformat = some d := by
  unfold fromisoformat Datetime.isoformat
  have : (String.mk (natDigits d.micros)).data = natDigits d.micros := rfl
  rw [this, parseDigits_natDigits]
  rfl

theorem exbind_ok {ε α β : Type} (a : α) (f : α → Except ε β) :
    (Except.ok a >>= f : Except ε β) = f a := rfl

theorem loadResult_ok (path : String) (snaps : List ProviderSnapshot) :
    loadResult path (.ok snaps) = .ok snaps := rfl

theorem loadResult_error (path : String) (e : PyExn) :
    loadResult path (.error e) =
      if caughtInLoad e then
        .error (.corrupted path ("Invalid cache structure: " ++ exnStr e))
      else .error (.uncaught e) := rfl

theorem fromisoformatPy_isoformat (d : Datetime) :
    fromisoformatPy (.str d.isoformat) = .ok d := by
  show (match fromisoformat d.isoformat with
    | some d2 => (.ok d2 : Except PyExn Datetime)
    | none => .error .valueError) = .ok d
  rw [fromisoformat_isoformat]

theorem asStrMap_strMap (l : List (String × String)) :
    asStrMap (.table (l.map (fun kv => (kv.1, Toml.str kv.2)))) = .ok l := by
  show (l.map (fun kv => (kv.1, Toml.str kv.2))).mapM strEntry = .ok l
  induction l with
  | nil => rfl
  | cons kv l ih =>
    rw [List.map_cons, List.mapM_cons]
    show strEntry (kv.1, Toml.str kv.2) >>=
      (fun b => ((l.map (fun kv => (kv.1, Toml.str kv.2))).mapM strEntry) >>=
        (fun bs => pure (b :: bs))) = .ok (kv :: l)
    rw [show strEntry (kv.1, Toml.str kv.2) = .ok (kv.1, kv.2) from rfl, exbind_ok]
    show ((l.map (fun kv => (kv.1, Toml.str kv.2))).mapM strEntry) >>=
      (fun bs => pure ((kv.1, kv.2) :: bs)) = .ok (kv :: l)
    rw [ih]
    rfl

theorem loadModel_modelToToml (m : Model) : loadModel (modelToToml m) = .ok m := by
  rcases m with ⟨mid, mn, pn, src, fa, md⟩
  show (do
    let srcV ← modelSourceOf (.str src.value)
    let faD ← fromisoformatPy (.str fa.isoformat)
    let mdM ← asStrMap (.table (md.map (fun kv => (kv.1, Toml.str kv.2))))
    pure (⟨mid, mn, pn, srcV, faD, mdM⟩ : Model) : Except PyExn Model) =
      .ok ⟨mid, mn, pn, src, fa, md⟩
  cases src <;>
    simp [modelSourceOf, ModelSource.value, exbind_ok, fromisoformatPy_isoformat,
      asStrMap_strMap]

theorem mapM_loadModel (l : List Model) :
    (l.map modelToToml).mapM loadModel = .ok l := by
  induction l with
  | nil => rfl
  | cons m l ih =>
    rw [List.map_cons, List.mapM_cons, loadModel_modelToToml, exbind_ok]
    show ((l.map modelToToml).mapM loadModel) >>= (fun bs => pure (m :: bs)) = .ok (m :: l)
    rw [ih]
    rfl

theorem loadSnapshot_snapToToml (p : ProviderSnapshot) :
    loadSnapshot (snapToToml p) = .ok (normEM p) := by
  rcases p with ⟨pn, models, fs, fa, em⟩
  show (do
    let models2 ← (models.map modelToToml).mapM loadModel
    let fsV ← fetchStatusOf (.str fs.value)
    let faD ← fromisoformatPy (.str fa.isoformat)
    pure (⟨pn, models2, fsV, faD, some (orEmpty em)⟩ : ProviderSnapshot) :
      Except PyExn ProviderSnapshot) = .ok (normEM ⟨pn, models, fs, fa, em⟩)
  rw [mapM_loadModel, exbind_ok]
  cases fs <;>
    simp [fetchStatusOf, FetchStatus.value, exbind_ok, fromisoformatPy_isoformat,
      normEM]

theorem mapM_loadSnapshot (l : List ProviderSnapshot) :
    (l.map snapToToml).mapM loadSnapshot = .ok (l.map normEM) := by
  induction l with
  | nil => rfl
  | cons p l ih =>
    rw [List.map_cons, List.mapM_cons, loadSnapshot_snapToToml, exbind_ok]
    show ((l.map snapToToml).mapM loadSnapshot) >>= (fun bs => pure (normEM p :: bs)) =
      .ok (normEM p :: l.map normEM)
    rw [ih]
    rfl

theorem reconstruct_cacheDictKvs (created_at now : Datetime)
    (snaps : List ProviderSnapshot) :
    reconstruct (cacheDictKvs created_at now snaps) = .ok (snaps.map normEM) := by
  show (do
    let items ← Except.ok (ε := PyExn) (snaps.map snapToToml)
    items.mapM loadSnapshot) = .ok (snaps.map normEM)
  rw [exbind_ok]
  exact mapM_loadSnapshot snaps

theorem load_cache_mkSaved (path : String) (created_at now : Datetime)
    (snaps : List ProviderSnapshot) :
    load_cache path (mkSaved created_at now snaps) = .ok (snaps.map normEM) := by
  show (match reconstruct (cacheDictKvs created_at now snaps) with
    | .ok snaps2 => (.ok snaps2 : Except LoadError (List ProviderSnapshot))
    | .error e =>
      if caughtInLoad e then
        .error (.corrupted path ("Invalid cache structure: " ++ exnStr e))
      else .error (.uncaught e)) = .ok (snaps.map normEM)
  rw [reconstruct_cacheDictKvs]

theorem save_cache_ok_shape {now : Datetime} {file : CacheFile} {rf : Bool}
    {providers : List ProviderSnapshot} {file2 : CacheFile}
    (h : save_cache now file rf providers = .ok file2) :
    ∃ c, file2 = mkSaved c now providers := by
  unfold save_cache at h
  split at h
  · exact ⟨now, by injection h with h2; exact h2.symm⟩
  · split at h
    · exact absurd h (by simp)
    · split at h
      · exact ⟨now, by injection h with h2; exact h2.symm⟩
      · split at h
        · next c hc => exact ⟨c, by injection h with h2; exact h2.symm⟩
        · split at h
          · exact ⟨now, by injection h with h2; exact h2.symm⟩
          · exact absurd h (by simp)

theorem isOk_fetchFromProvider (fetch : String → Except String (List Model))
    (times : String → Datetime) (n : String) :
    (fetchFromProvider fetch times n).isOk = (fetch n).isOk := by
  unfold fetchFromProvider
  cases fetch n <;> rfl

theorem partitionResults_zip_map (F : String → Except String ProviderSnapshot)
    (names : List String) :
    partitionResults (names.zip (names.map F)) =
      (names.filterMap (fun n => (F n).toOption),
       names.filter (fun n => (F n).isOk),
       names.filter (fun n => !(F n).isOk)) := by
  induction names with
  | nil => rfl
  | cons n ns ih =>
    rw [List.map_cons, List.zip_cons_cons, partitionResults, ih]
    cases hF : F n <;>
      simp [hF, List.filterMap_cons, List.filter_cons, Except.toOption, Except.isOk,
        Except.toBool]

theorem provider_names_ne_nil (cfg : Config) : provider_names cfg ≠ [] := by
  simp [provider_names]

/-- `fetch_all_models`, rewritten over the black-box fetch outcomes: the two
provider-name lists are the registration-order sublists of succeeding and of
failing providers, and the success result is the snapshot list in
registration order.  The completion order does not appear on the right-hand
side. -/
theorem fetch_all_models_eq (cfg : Config)
    (fetch : String → Except String (List Model)) (times : String → Datetime)
    (completionOrder : List Nat) :
    fetch_all_models cfg fetch times completionOrder =
      (if ((provider_names cfg).filter (fun n => !(fetch n).isOk)) ≠ [] then
        if ((provider_names cfg).filter (fun n => (fetch n).isOk)) ≠ [] then
          .error (.partialFetch
            ((provider_names cfg).filter (fun n => (fetch n).isOk))
            ((provider_names cfg).filter (fun n => !(fetch n).isOk)))
        else .error (.providerFetch "all" "All providers failed")
      else
        .ok ((provider_names cfg).filterMap
          (fun n => (fetchFromProvider fetch times n).toOption))) := by
  unfold fetch_all_models gather
  simp only [partitionResults_zip_map]
  rw [List.filter_congr
    (fun n _ => by rw [isOk_fetchFromProvider] :
      ∀ n ∈ provider_names cfg,
        ((fetchFromProvider fetch times n).isOk : Bool) = (fetch n).isOk)]
  rw [List.filter_congr
    (fun n _ => by rw [isOk_fetchFromProvider] :
      ∀ n ∈ provider_names cfg,
        (!(fetchFromProvider fetch times n).isOk : Bool) = !(fetch n).isOk)]

theorem filterMap_all_ok (fetch : String → Except String (List Model))
    (times : String → Datetime) (mods : String → List Model) :
    ∀ names : List String, (∀ n ∈ names, fetch n = .ok (mods n)) →
      names.filterMap (fun n => (fetchFromProvider fetch times n).toOption) =
        names.map (fun n => (⟨n, mods n, .success, times n, none⟩ : ProviderSnapshot)) := by
  intro names
  induction names with
  | nil => intro _; rfl
  | cons n ns ih =>
    intro h
    rw [List.filterMap_cons, List.map_cons]
    rw [show fetchFromProvider fetch times n = .ok ⟨n, mods n, .success, times n, none⟩ from
      by unfold fetchFromProvider; rw [h n (List.mem_cons_self n ns)]]
    rw [ih (fun m hm => h m (List.mem_cons_of_mem n hm))]
    rfl

/-- C1: in every run of `fetch_all_models` in which at least one active
provider's fetch fails and at least one succeeds, the operation fails with a
`PartialFetchError` carrying the successful provider names and the failed
provider names (each in registration order), and — via the `update` flow,
which saves only after a successful fetch — no cache write occurs: the cache
file's state is unchanged. -/
theorem C1_partial_fetch_aborts_without_write (cfg : Config)
    (fetch : String → Except String (List Model)) (times : String → Datetime)
    (completionOrder : List Nat)
    (hs : ∃ n ∈ provider_names cfg, (fetch n).isOk = true)
    (hf : ∃ n ∈ provider_names cfg, (fetch n).isOk = false) :
    fetch_all_models cfg fetch times completionOrder =
      .error (.partialFetch
        ((provider_names cfg).filter (fun n => (fetch n).isOk))
        ((provider_names cfg).filter (fun n => !(fetch n).isOk))) ∧
    ∀ (now : Datetime) (file : CacheFile) (readFails : Bool),
      update_command cfg fetch times completionOrder now file readFails = (1, file) := by
  obtain ⟨ns, hns, hnsOk⟩ := hs
  obtain ⟨nf, hnf, hnfBad⟩ := hf
  have hbad_ne : (provider_names cfg).filter (fun n => !(fetch n).isOk) ≠ [] :=
    List.ne_nil_of_mem (List.mem_filter.mpr ⟨hnf, by rw [hnfBad]; rfl⟩)
  have hok_ne : (provider_names cfg).filter (fun n => (fetch n).isOk) ≠ [] :=
    List.ne_nil_of_mem (List.mem_filter.mpr ⟨hns, hnsOk⟩)
  have hmain : fetch_all_models cfg fetch times completionOrder =
      .error (.partialFetch
        ((provider_names cfg).filter (fun n => (fetch n).isOk))
        ((provider_names cfg).filter (fun n => !(fetch n).isOk))) := by
    rw [fetch_all_models_eq, if_pos hbad_ne, if_pos hok_ne]
  refine ⟨hmain, ?_⟩
  intro now file readFails
  unfold update_command
  rw [hmain]

theorem C1_witness :
    fetch_all_models cfgC1 fetchC1 timesZero [] =
      .error (.partialFetch ["openai"] ["anthropic"]) ∧
    update_command cfgC1 fetchC1 timesZero [] ⟨9⟩ .absent false = (1, .absent) := by
  have h := C1_partial_fetch_aborts_without_write cfgC1 fetchC1 timesZero []
    ⟨"openai", by decide, rfl⟩ ⟨"anthropic", by decide, rfl⟩
  exact ⟨h.1, h.2 ⟨9⟩ .absent false⟩

/-- C2 counterexample: with two active providers both failing, the code does
not fail with an error of a kind distinct from the single-provider
`ProviderFetchError` and from `PartialFetchError` (no `AllProvidersFailedError`
is raised): the error raised is the single-provider kind itself,
`ProviderFetchError(provider_name="all", cause="All providers failed")`
(discovery.py:86-88). -/
theorem C2_counterexample :
    ¬ ∃ e, fetch_all_models cfgC2 fetchAllFail timesZero [] = .error e ∧
      (∀ s f, e ≠ .partialFetch s f) ∧ (∀ p c, e ≠ .providerFetch p c) := by
  rintro ⟨e, he, _, hq⟩
  rw [show fetch_all_models cfgC2 fetchAllFail timesZero [] =
    .error (.providerFetch "all" "All providers failed") from rfl] at he
  injection he with h2
  exact hq "all" "All providers failed" h2.symm

/-- C2 (amended): for every run of `fetch_all_models` in which every active
provider's fetch fails, the operation fails with
`ProviderFetchError(provider_name="all", cause="All providers failed")` —
the same error kind as a single provider's fetch failure, distinct from
`PartialFetchError`; no separate `AllProvidersFailedError` kind is raised. -/
theorem C2_all_fail_provider_fetch_error (cfg : Config)
    (fetch : String → Except String (List Model)) (times : String → Datetime)
    (completionOrder : List Nat)
    (h : ∀ n ∈ provider_names cfg, (fetch n).isOk = false) :
    fetch_all_models cfg fetch times completionOrder =
      .error (.providerFetch "all" "All providers failed") := by
  have hok_nil : (provider_names cfg).filter (fun n => (fetch n).isOk) = [] :=
    List.filter_eq_nil_iff.mpr (fun n hn => by rw [h n hn]; simp)
  have hbad_eq : (provider_names cfg).filter (fun n => !(fetch n).isOk) =
      provider_names cfg :=
    List.filter_eq_self.mpr (fun n hn => by rw [h n hn]; rfl)
  have hbad_ne : (provider_names cfg).filter (fun n => !(fetch n).isOk) ≠ [] := by
    rw [hbad_eq]; exact provider_names_ne_nil cfg
  rw [fetch_all_models_eq, if_pos hbad_ne, if_neg (fun hne => hne hok_nil)]

theorem C2_witness :
    fetch_all_models cfgC2 fetchAllFail timesZero [] =
      .error (.providerFetch "all" "All providers failed") :=
  C2_all_fail_provider_fetch_error cfgC2 fetchAllFail timesZero []
    (fun _ _ => rfl)

/-- C7: in every run of `fetch_all_models` in which all active providers
succeed, the returned snapshot sequence is in provider registration order —
`provider_names cfg`, i.e. openai when configured, then google when
configured, then anthropic — and the result is independent of the order in
which the concurrent fetch tasks complete (`asyncio.gather` returns results
positionally). -/
theorem C7_success_registration_order (cfg : Config)
    (fetch : String → Except String (List Model)) (times : String → Datetime)
    (mods : String → List Model) (completionOrder completionOrder' : List Nat)
    (h : ∀ n ∈ provider_names cfg, fetch n = .ok (mods n)) :
    fetch_all_models cfg fetch times completionOrder =
      .ok ((provider_names cfg).map
        (fun n => (⟨n, mods n, .success, times n, none⟩ : ProviderSnapshot))) ∧
    fetch_all_models cfg fetch times completionOrder =
      fetch_all_models cfg fetch times completionOrder' := by
  constructor
  · have hbad_nil : (provider_names cfg).filter (fun n => !(fetch n).isOk) = [] :=
      List.filter_eq_nil_iff.mpr (fun n hn => by rw [h n hn]; simp [Except.isOk, Except.toBool])
    rw [fetch_all_models_eq, if_neg (fun hne => hne hbad_nil)]
    rw [filterMap_all_ok fetch times mods _ h]
  · rfl

theorem C7_witness :
    fetch_all_models cfgC7 fetchC7 timesZero [0, 1, 2] =
      .ok [⟨"openai", [], .success, ⟨0⟩, none⟩,
           ⟨"google", [], .success, ⟨0⟩, none⟩,
           ⟨"anthropic", [], .success, ⟨0⟩, none⟩] ∧
    fetch_all_models cfgC7 fetchC7 timesZero [0, 1, 2] =
      fetch_all_models cfgC7 fetchC7 timesZero [2, 1, 0] :=
  C7_success_registration_order cfgC7 fetchC7 timesZero (fun _ => []) [0, 1, 2] [2, 1, 0]
    (fun _ _ => rfl)

/-- C3 (amended): saving any sequence of `ProviderSnapshot` and then loading
yields snapshots equal to the saved ones in provider order, in model order
within each provider, and in every field — timestamps round-trip exactly
(hence to at least second precision) — except `error_message`: an absent
error message (`None`) is written as `""` (cache.py:74,
`p.error_message or ""`) and read back verbatim, so it comes back as `""`
rather than `None`. -/
theorem C3_round_trip (now : Datetime) (file : CacheFile) (readFails : Bool)
    (snaps : List ProviderSnapshot) (path : String) (file2 : CacheFile)
    (h : save_cache now file readFails snaps = .ok file2) :
    load_cache path file2 = .ok (snaps.map normEM) := by
  obtain ⟨c, rfl⟩ := save_cache_ok_shape h
  exact load_cache_mkSaved path c now snaps

/-- C3 counterexample: a success snapshot saved with `error_message = None`
loads back with `error_message = Some ""`, so the loaded snapshot is not
equal to the saved one in every field. -/
theorem C3_counterexample :
    save_cache ⟨5⟩ .absent false [snapC3] = .ok (mkSaved ⟨5⟩ ⟨5⟩ [snapC3]) ∧
    load_cache "cache" (mkSaved ⟨5⟩ ⟨5⟩ [snapC3]) =
      .ok [⟨"openai", [], .success, ⟨3⟩, some ""⟩] ∧
    ([⟨"openai", [], .success, ⟨3⟩, some ""⟩] : List ProviderSnapshot) ≠ [snapC3] := by
  refine ⟨rfl, rfl, ?_⟩
  decide

theorem C3_witness :
    load_cache "cache" (mkSaved ⟨5⟩ ⟨5⟩ [snapC3a, snapC3b]) =
      .ok [⟨"openai", [modelC3], .success, ⟨3⟩, some ""⟩,
           ⟨"google", [], .failure, ⟨4⟩, some "err"⟩] :=
  C3_round_trip ⟨5⟩ .absent false [snapC3a, snapC3b] "cache"
    (mkSaved ⟨5⟩ ⟨5⟩ [snapC3a, snapC3b]) rfl

/-- C4 counterexample: a save over a present cache file during which reading
the existing file raises a transient I/O error (`OSError`) does not complete
successfully: `OSError` is not in the `except (TOMLDecodeError, KeyError,
ValueError)` tuple at cache.py:49, so it propagates and aborts the save. -/
theorem C4_counterexample :
    save_cache ⟨5⟩ fileC4 true [] = .error .osError ∧
    ¬ ∃ f, save_cache ⟨5⟩ fileC4 true [] = .ok f := by
  refine ⟨rfl, ?_⟩
  rintro ⟨f, hf⟩
  rw [show save_cache ⟨5⟩ fileC4 true [] = .error .osError from rfl] at hf
  exact Except.noConfusion hf

/-- C4 (amended): a save over an existing cache file from which `created_at`
cannot be recovered because of a decode failure, a missing key, or a
malformed timestamp string (the exception raised is `TOMLDecodeError`,
`KeyError` or `ValueError`) does not abort: it completes and stores
`created_at = now`.  (A transient I/O error while reading, or a `created_at`
value that is not a string — `TypeError` — is not caught and aborts the
save.) -/
theorem C4_recovery_failure_swallowed (now : Datetime) (kvs : List (String × Toml))
    (providers : List ProviderSnapshot) :
    (save_cache now (.present .unparsable) false providers =
      .ok (mkSaved now now providers)) ∧
    (∀ e, attemptRecover kvs = .error e → caughtInSave e = true →
      save_cache now (.present (.parsable kvs)) false providers =
        .ok (mkSaved now now providers)) := by
  refine ⟨rfl, ?_⟩
  intro e he hc
  simp [save_cache, he, hc]

theorem C4_witness :
    save_cache ⟨7⟩ (.present (.parsable [])) false [] = .ok (mkSaved ⟨7⟩ ⟨7⟩ []) :=
  (C4_recovery_failure_swallowed ⟨7⟩ [] []).2 .keyError rfl rfl

/-- C5: for every valid existing cache file whose metadata records
`created_at = T0` (i.e. recovering `created_at` from it succeeds with `T0`),
a save performed at time `T1 > T0` produces a cache file whose metadata is
exactly `version`, `created_at = T0` and `last_updated = T1`: `created_at`
is preserved and `last_updated` advances to the save time. -/
theorem C5_created_at_preserved (kvs : List (String × Toml)) (T0 T1 : Datetime)
    (providers : List ProviderSnapshot)
    (hrec : attemptRecover kvs = .ok T0) (_hlt : T0.micros < T1.micros) :
    save_cache T1 (.present (.parsable kvs)) false providers =
      .ok (mkSaved T0 T1 providers) ∧
    lookupT (cacheDictKvs T0 T1 providers) "metadata" =
      some (.table [("version", .int TOML_CACHE_VERSION),
        ("created_at", .str T0.isoformat),
        ("last_updated", .str T1.isoformat)]) := by
  refine ⟨?_, rfl⟩
  simp [save_cache, hrec]

theorem C5_witness :
    save_cache ⟨7⟩ (.present (.parsable kvsC5)) false [] = .ok (mkSaved ⟨3⟩ ⟨7⟩ []) ∧
    lookupT (cacheDictKvs ⟨3⟩ ⟨7⟩ []) "metadata" =
      some (.table [("version", .int TOML_CACHE_VERSION),
        ("created_at", .str (Datetime.isoformat ⟨3⟩)),
        ("last_updated", .str (Datetime.isoformat ⟨7⟩))]) :=
  C5_created_at_preserved kvsC5 ⟨3⟩ ⟨7⟩ [] rfl (by decide)

/-- C6 counterexample: a present, parsable cache file whose `providers` array
contains a non-table entry (here the string `"x"`) makes `load_cache` raise
an `AttributeError` (`"x".get(...)` at cache.py:116) that is caught by
neither `except` clause, so the failure is not normalized into
`CacheCorruptedError`. -/
theorem C6_counterexample :
    load_cache "cache" fileC6 = .error (.uncaught .attributeError) ∧
    ¬ ∃ cp pe, load_cache "cache" fileC6 = .error (.corrupted cp pe) := by
  refine ⟨rfl, ?_⟩
  rintro ⟨cp, pe, h⟩
  rw [show load_cache "cache" fileC6 = .error (.uncaught .attributeError) from rfl] at h
  injection h with h2
  exact LoadError.noConfusion h2

/-- C6 (amended): `load_cache` fails with `CacheNotFoundError` exactly when
the cache file is absent; an unparsable file fails with
`CacheCorruptedError` carrying the file path; a reconstruction failure whose
exception is `KeyError`, `ValueError` or `TypeError` is normalized into
`CacheCorruptedError` carrying the path and the cause; and no partial data
is ever returned (a loaded list is exactly a fully successful
reconstruction).  Exception: a providers entry that is not a table raises an
`AttributeError` that escapes both `except` clauses un-normalized. -/
theorem C6_load_error_normalization (path : String) (kvs : List (String × Toml))
    (content : FileContent) :
    (load_cache path .absent = .error (.notFound ("Cache file not found: " ++ path))) ∧
    (∀ m, load_cache path (.present content) ≠ .error (.notFound m)) ∧
    (load_cache path (.present .unparsable) = .error (.corrupted path "TOML decode error")) ∧
    (∀ e, reconstruct kvs = .error e → caughtInLoad e = true →
      load_cache path (.present (.parsable kvs)) =
        .error (.corrupted path ("Invalid cache structure: " ++ exnStr e))) ∧
    (∀ snaps, load_cache path (.present (.parsable kvs)) = .ok snaps →
      reconstruct kvs = .ok snaps) := by
  refine ⟨rfl, ?_, rfl, ?_, ?_⟩
  · intro m hm
    rcases content with kvs2 | _
    · rw [show load_cache path (.present (.parsable kvs2)) =
        loadResult path (reconstruct kvs2) from rfl] at hm
      rcases hr : reconstruct kvs2 with e | snaps
      · rw [hr, loadResult_error] at hm
        cases hcl : caughtInLoad e <;> rw [hcl] at hm <;> simp at hm
      · rw [hr, loadResult_ok] at hm
        exact absurd hm (by simp)
    · injection hm with h2; exact LoadError.noConfusion h2
  · intro e he hc
    rw [show load_cache path (.present (.parsable kvs)) =
      loadResult path (reconstruct kvs) from rfl, he, loadResult_error, hc, if_pos rfl]
  · intro snaps hok
    rw [show load_cache path (.present (.parsable kvs)) =
      loadResult path (reconstruct kvs) from rfl] at hok
    rcases hr : reconstruct kvs with e | snaps2
    · rw [hr, loadResult_error] at hok
      cases hcl : caughtInLoad e <;> rw [hcl] at hok <;> simp at hok
    · rw [hr, loadResult_ok] at hok
      injection hok with h2
      rw [h2]

theorem C6_witness :
    load_cache "cache" (.present (.parsable kvsC6)) =
      .error (.corrupted "cache" "Invalid cache structure: KeyError") :=
  (C6_load_error_normalization "cache" kvsC6 .unparsable).2.2.2.1 .keyError rfl rfl

theorem foldl_append_models (snaps : List ProviderSnapshot) :
    ∀ acc : List Model,
      snaps.foldl (fun a p => a ++ p.models) acc =
        acc ++ (snaps.map (fun p => p.models)).flatten := by
  induction snaps with
  | nil => intro acc; simp
  | cons p ps ih => intro acc; simp [ih, List.append_assoc]

/-- C9: for every readable cache file, `get_cached_models` returns exactly
the concatenation of each snapshot's model sequence in provider order, model
order within each provider preserved; and on a cache with zero providers it
returns the empty sequence rather than an error. -/
theorem C9_get_cached_models_flattens (path : String) (file : CacheFile)
    (snaps : List ProviderSnapshot)
    (h : load_cache path file = .ok snaps) :
    get_cached_models path file = .ok ((snaps.map (fun p => p.models)).flatten) ∧
    get_cached_models path (.present (.parsable kvsEmptyProviders)) = .ok [] := by
  refine ⟨?_, rfl⟩
  unfold get_cached_models
  rw [h]
  show Except.ok (snaps.foldl (fun acc p => acc ++ p.models) []) =
    .ok ((snaps.map (fun p => p.models)).flatten)
  rw [foldl_append_models]
  rfl

theorem C9_witness :
    get_cached_models "cache" fileC9 = .ok [modelC9a, modelC9b] ∧
    get_cached_models "cache" (.present (.parsable kvsEmptyProviders)) = .ok [] := by
  have h := C9_get_cached_models_flattens "cache" fileC9
    [⟨"openai", [modelC9a], .success, ⟨3⟩, some ""⟩,
     ⟨"google", [modelC9b], .success, ⟨3⟩, some ""⟩] rfl
  exact ⟨h.1, h.2⟩

/-- C10: `load_cache`'s result depends only on the top-level `providers`
array and never on the `metadata` table: two parseable files with the same
`providers` value (whatever their `metadata`, including an absent table or a
missing or arbitrarily typed schema version) load to the same result, and a
parseable file with no top-level `providers` key loads as the empty snapshot
list rather than an error — no schema-version check is performed on read. -/
theorem C10_load_ignores_metadata (path : String) (kvs1 kvs2 : List (String × Toml)) :
    (lookupT kvs1 "providers" = lookupT kvs2 "providers" →
      load_cache path (.present (.parsable kvs1)) =
        load_cache path (.present (.parsable kvs2))) ∧
    (lookupT kvs1 "providers" = none →
      load_cache path (.present (.parsable kvs1)) = .ok []) := by
  constructor
  · intro h
    have hrec : reconstruct kvs1 = reconstruct kvs2 := by
      unfold reconstruct
      rw [h]
    show loadResult path (reconstruct kvs1) = loadResult path (reconstruct kvs2)
    rw [hrec]
  · intro h
    have hrec : reconstruct kvs1 = .ok [] := by
      unfold reconstruct
      rw [h]
      rfl
    show loadResult path (reconstruct kvs1) = .ok []
    rw [hrec, loadResult_ok]

theorem C10_witness :
    load_cache "cache" (.present (.parsable kvsC10)) =
      load_cache "cache" (.present (.parsable [])) ∧
    load_cache "cache" (.present (.parsable kvsC10)) = .ok [] :=
  ⟨(C10_load_ignores_metadata "cache" kvsC10 []).1 rfl,
   (C10_load_ignores_metadata "cache" kvsC10 []).2 rfl⟩

/-- C8: for every invocation of `export_command` with a supported format,
the call `Config.from_env(require_api_keys=False)` passes a keyword argument
that `from_env` does not accept, so configuration loading raises `TypeError`
(not caught by the `except ValueError` handler), which falls through to the
catch-all handler: the command exits with code 1 before ever reading the
cache or invoking an exporter. -/
theorem C8_export_type_error_before_cache (fmt : String) (envConfig : Config)
    (path : String) (cache : CacheFile)
    (h : SUPPORTED_EXPORT_FORMATS.contains fmt = true) :
    ("require_api_keys" ∈ from_env_params → False) ∧
    callFromEnv envConfig ["require_api_keys"] = .error .typeError ∧
    export_command fmt envConfig path cache =
      ⟨1, true, false, false⟩ := by
  refine ⟨fun hmem => by simp [from_env_params] at hmem, rfl, ?_⟩
  unfold export_command
  rw [if_neg (not_not_intro h)]
  rw [show callFromEnv envConfig ["require_api_keys"] = .error .typeError from rfl]
  rfl

theorem C8_witness :
    ("require_api_keys" ∈ from_env_params → False) ∧
    callFromEnv ⟨none, none, false⟩ ["require_api_keys"] = .error .typeError ∧
    export_command "json" ⟨none, none, false⟩ "cache" .absent =
      ⟨1, true, false, false⟩ :=
  C8_export_type_error_before_cache "json" ⟨none, none, false⟩ "cache" .absent rfl
